import Mathlib

/-!
Shallow embedding of the admin dashboard page
(`src/app/admin-dashboard/page.tsx`) and proofs about its pure logic:
slug derivation, the slug-recompute effect, the sales tally, taxonomy
seeding, submit-time data assembly, the upload completion and error
callbacks, order-status updates, the access gate, and taxonomy adds.

Modelling conventions: JavaScript strings are Lean `String`/`List Char`;
numbers that only hold integral values in the claims are `Int`;
`null`/`undefined` are `Option.none`.  JavaScript `toLowerCase` is
modelled on the ASCII range (`Char.toLower`); the regex class `\s` and
`String.prototype.trim` use the full ECMAScript whitespace set, written
out below.
-/

set_option autoImplicit false

namespace AdminDashboard

/-- The ECMAScript whitespace set matched by the regex class `\s` and
removed by `String.prototype.trim`. -/
def isJsWhitespace (c : Char) : Bool :=
  c == ' ' || c == '\t' || c == '\n' || c == '\r' ||
  c.toNat == 0x0B || c.toNat == 0x0C || c.toNat == 0xA0 ||
  c.toNat == 0x1680 || (0x2000 ≤ c.toNat && c.toNat ≤ 0x200A) ||
  c.toNat == 0x2028 || c.toNat == 0x2029 || c.toNat == 0x202F ||
  c.toNat == 0x205F || c.toNat == 0x3000 || c.toNat == 0xFEFF

/-- `String.prototype.toLowerCase`, on character lists (ASCII range). -/
def jsToLowerChars (l : List Char) : List Char :=
  l.map Char.toLower

/-- `String.prototype.trim`, on character lists: drop whitespace from both
ends. -/
def jsTrimChars (l : List Char) : List Char :=
  ((l.dropWhile isJsWhitespace).reverse.dropWhile isJsWhitespace).reverse

/-- `String.prototype.trim` on strings. -/
def jsTrim (s : String) : String :=
  String.mk (jsTrimChars s.data)

/-- `.replace(/&/g, 'and')`: every ampersand becomes the three letters
`and`. -/
def ampToAnd (l : List Char) : List Char :=
  (l.map (fun c => if c == '&' then ['a', 'n', 'd'] else [c])).flatten

/-- The character class `[a-z0-9\s-]` kept by `.replace(/[^a-z0-9\s-]/g, '')`. -/
def isSlugKeep (c : Char) : Bool :=
  ('a' ≤ c && c ≤ 'z') || ('0' ≤ c && c ≤ '9') || isJsWhitespace c || c == '-'

/-- `.replace(/[^a-z0-9\s-]/g, '')`: strip every character outside
`[a-z0-9\s-]`. -/
def stripDisallowed (l : List Char) : List Char :=
  l.filter isSlugKeep

/-- A global regex replace of each maximal run of characters satisfying `p`
by the single character `rep`.  The flag records whether the previous
character was inside such a run. -/
def collapseRuns (p : Char → Bool) (rep : Char) : Bool → List Char → List Char
  | _, [] => []
  | inRun, c :: rest =>
    if p c then
      if inRun then collapseRuns p rep true rest
      else rep :: collapseRuns p rep true rest
    else c :: collapseRuns p rep false rest

/-- `.replace(/\s+/g, '-')`: each whitespace run becomes one hyphen. -/
def collapseWhitespace (l : List Char) : List Char :=
  collapseRuns isJsWhitespace '-' false l

/-- The global replace of the pattern `-+` by `'-'`: each hyphen run
becomes one hyphen. -/
def collapseHyphens (l : List Char) : List Char :=
  collapseRuns (fun c => c == '-') '-' false l

/-- The slug derivation chain of the `slug` effect (`page.tsx` line 158):
lowercase, trim, replace `&` by `and`, strip everything outside
`[a-z0-9\s-]`, turn whitespace runs into one hyphen, and collapse hyphen
runs. -/
def generatedSlug (name : String) : String :=
  String.mk (collapseHyphens (collapseWhitespace (stripDisallowed
    (ampToAnd (jsTrimChars (jsToLowerChars name.data))))))

/-- The product record stored in the `products` collection.  The TypeScript
type lives in `@/lib/types` (not part of the sources); its shape follows
the spec data model and the field accesses in `page.tsx`. -/
structure Product where
  id : String
  name : String
  slug : String
  description : String
  category : String
  style : Option String
  price : Int
  originalPrice : Option Int
  isFeatured : Bool
deriving DecidableEq

/-- The `ProductFormData` record managed by the form
(`z.infer<typeof productSchema>` plus the `defaultValues`); `isFeatured`
is optional in the schema, hence `Option Bool`. -/
structure ProductFormData where
  name : String
  slug : String
  description : String
  category : String
  style : String
  price : Int
  originalPrice : Option Int
  imageUrl1 : String
  imageUrl2 : String
  imageUrl3 : String
  imageUrl4 : String
  sizes : List String
  availableColors : List (String × String)
  isFeatured : Option Bool
deriving DecidableEq

/-- The slug `useEffect` (`page.tsx` lines 156-161): when no product is
being edited and the watched name is truthy (non-empty), write
`generatedSlug name` into the slug field; otherwise do nothing. -/
def slugEffect (editingProduct : Option Product) (d : ProductFormData) : ProductFormData :=
  if editingProduct.isNone && !(d.name == "") then
    { d with slug := generatedSlug d.name }
  else d

/-- The order status enum.  The TypeScript union `Order['status']` lives in
`@/lib/types` (not part of the sources).  Modelled from the spec: status is
the enum `pending | shipped | delivered | cancelled`, matching the four
`SelectItem` options rendered in `page.tsx` lines 542-545. -/
inductive OrderStatus where
  | pending
  | shipped
  | delivered
  | cancelled
deriving DecidableEq

/-- One `{id, name, quantity}` line of an order's `products` array. -/
structure OrderLine where
  id : String
  name : String
  quantity : Int
deriving DecidableEq

/-- An order record.  The TypeScript type lives in `@/lib/types` (not part
of the sources); the fields follow the spec data model and the accesses in
`page.tsx`. -/
structure Order where
  id : String
  customerName : String
  customerEmail : String
  products : List OrderLine
  totalAmount : Int
  status : OrderStatus
deriving DecidableEq

/-- One step of the tally: `counts[k] = (counts[k] || 0) + q` on a
JavaScript object modelled as an insertion-ordered association list. -/
def bump (counts : List (String × Int)) (k : String) (q : Int) : List (String × Int) :=
  match counts with
  | [] => [(k, q)]
  | (k0, v) :: rest => if k0 == k then (k0, v + q) :: rest else (k0, v) :: bump rest k q

/-- `salesCount` (`page.tsx` lines 105-114): for every order, for every
product line, accumulate the quantity under the line's product id. -/
def salesCount (orders : List Order) : List (String × Int) :=
  orders.foldl
    (fun counts o => o.products.foldl (fun c p => bump c p.id p.quantity) counts) []

/-- Reading the tally object: `counts[k] || 0`. -/
def countOf (counts : List (String × Int)) (k : String) : Int :=
  match counts with
  | [] => 0
  | (k0, v) :: rest => if k0 == k then v else countOf rest k

/-- The specification-side total: the sum over all orders of the quantities
of the lines whose product id is `k`. -/
def totalQty (orders : List Order) (k : String) : Int :=
  (orders.map (fun o =>
    ((o.products.filter (fun p => p.id == k)).map OrderLine.quantity).sum)).sum

/-- `defaultCategories` of the seeding effect (`page.tsx` line 124). -/
def defaultCategories : List String :=
  ["Women", "Men", "Unisex", "Bags"]

/-- `defaultStyles` of the seeding effect (`page.tsx` line 134). -/
def defaultStyles : List String :=
  ["Casual", "Streetwear", "Formal", "Vintage", "Minimal", "Small", "Big", "Luggage"]

/-- `String.prototype.toLowerCase` on strings (ASCII range). -/
def lowerStr (s : String) : String :=
  String.mk (jsToLowerChars s.data)

/-- The names the seeding effect inserts (`page.tsx` lines 126-130 and
136-140): the default names whose lowercase form is not in the set of
lowercased existing names. -/
def seedInserts (defaults existing : List String) : List String :=
  defaults.filter (fun name => !((existing.map lowerStr).contains (lowerStr name)))

/-- One run of the seeding effect over a store holding `existing` names:
the store afterwards holds the old names plus the inserted defaults. -/
def runSeed (defaults existing : List String) : List String :=
  existing ++ seedInserts defaults existing

/-- One `{url, alt, hint}` entry of a product's image list. -/
structure ProductImage where
  url : String
  alt : String
  hint : String
deriving DecidableEq

/-- JavaScript `s || null` on a string: the empty string is falsy. -/
def jsStringOrNull (s : String) : Option String :=
  if s == "" then none else some s

/-- JavaScript `v || null` on a nullable number: `null`, `undefined` and
`0` are falsy. -/
def jsNumOrNull (v : Option Int) : Option Int :=
  match v with
  | none => none
  | some n => if n == 0 then none else some n

/-- The `productData` record assembled by `onSubmit` (`page.tsx` lines
221-228): the spread form data with `style`/`originalPrice` nulled when
falsy, the assembled image list, and `isFeatured ?? false`.  The
server-assigned timestamps are an external effect and are not modelled. -/
structure ProductData where
  name : String
  slug : String
  description : String
  category : String
  style : Option String
  price : Int
  originalPrice : Option Int
  imageUrl1 : String
  imageUrl2 : String
  imageUrl3 : String
  imageUrl4 : String
  sizes : List String
  availableColors : List (String × String)
  isFeatured : Bool
  images : List ProductImage
deriving DecidableEq

/-- `onSubmit` (`page.tsx` lines 214-238), restricted to the data it
writes: filter the four URL fields down to the truthy ones, tag each with
`alt = data.name` and `hint = 'product image'`, and merge into the spread
form data. -/
def onSubmit (data : ProductFormData) : ProductData :=
  let images :=
    ([data.imageUrl1, data.imageUrl2, data.imageUrl3, data.imageUrl4].filter
        (fun url => !(url == ""))).map
      (fun url => { url := url, alt := data.name, hint := "product image" : ProductImage })
  { name := data.name
    slug := data.slug
    description := data.description
    category := data.category
    style := jsStringOrNull data.style
    price := data.price
    originalPrice := jsNumOrNull data.originalPrice
    imageUrl1 := data.imageUrl1
    imageUrl2 := data.imageUrl2
    imageUrl3 := data.imageUrl3
    imageUrl4 := data.imageUrl4
    sizes := data.sizes
    availableColors := data.availableColors
    isFeatured := data.isFeatured.getD false
    images := images }

/-- The upload-related component state (`uploading`, `uploadProgress`,
`uploadedUrl` of `page.tsx` lines 85-87). -/
structure UploadState where
  uploading : Bool
  uploadProgress : Int
  uploadedUrl : Option String
deriving DecidableEq

/-- The field scan of the upload completion callback (`page.tsx` lines
184-188): `imageFields.find(field => !form.getValues(field))` followed by
`setValue` when a field was found; the first falsy (empty) URL field in
order 1..4 receives the download URL, and nothing changes when all four
are filled. -/
def autofillFirstEmpty (d : ProductFormData) (downloadURL : String) : ProductFormData :=
  if d.imageUrl1 == "" then { d with imageUrl1 := downloadURL }
  else if d.imageUrl2 == "" then { d with imageUrl2 := downloadURL }
  else if d.imageUrl3 == "" then { d with imageUrl3 := downloadURL }
  else if d.imageUrl4 == "" then { d with imageUrl4 := downloadURL }
  else d

/-- The upload completion callback (`page.tsx` lines 180-190): record the
download URL, clear the uploading flag, and autofill the first empty URL
field. -/
def uploadComplete (u : UploadState) (d : ProductFormData) (downloadURL : String) :
    UploadState × ProductFormData :=
  ({ u with uploadedUrl := some downloadURL, uploading := false },
   autofillFirstEmpty d downloadURL)

/-- The upload error callback (`page.tsx` lines 176-179):
`console.error("Upload failed", error)` (modelled as appending to a log)
and `setUploading(false)`; the form data is not touched. -/
def uploadErrorHandler (errorLog : List String) (err : String) (u : UploadState)
    (d : ProductFormData) : List String × UploadState × ProductFormData :=
  (errorLog ++ ["Upload failed " ++ err], { u with uploading := false }, d)

/-- The schema boundary of `Order['status']`.  Modelled from the spec: the
enum admits exactly `pending`, `shipped`, `delivered`, `cancelled` (the
union type itself lives in `@/lib/types`, outside the sources); these are
also exactly the option values of the status `Select` in `page.tsx`. -/
def parseOrderStatus (s : String) : Option OrderStatus :=
  if s == "pending" then some OrderStatus.pending
  else if s == "shipped" then some OrderStatus.shipped
  else if s == "delivered" then some OrderStatus.delivered
  else if s == "cancelled" then some OrderStatus.cancelled
  else none

/-- `handleUpdateOrderStatus` (`page.tsx` lines 272-279) behind the schema
boundary: a raw value outside the enum is rejected and nothing is written;
a legal value is written into the order with the given id. -/
def handleUpdateOrderStatus (orders : List Order) (orderId : String) (rawStatus : String) :
    List Order :=
  match parseOrderStatus rawStatus with
  | none => orders
  | some st => orders.map (fun o => if o.id == orderId then { o with status := st } else o)

/-- The signed-in user as observed by the gate: Firebase exposes
`email : string | null`. -/
structure AuthUser where
  email : Option String
deriving DecidableEq

/-- The four views the `AdminDashboard` component can return. -/
inductive GateView where
  | loading
  | login
  | denied
  | dashboard
deriving DecidableEq

/-- JavaScript strict equality `a === b` between `user.email`
(`string | null`) and `ADMIN_EMAIL` (`string | undefined`): true exactly
when both are strings and equal. -/
def jsStrictEq : Option String → Option String → Bool
  | some a, some b => a == b
  | _, _ => false

/-- The access gate of `AdminDashboard` (`page.tsx` lines 598-659): while
`isUserLoading` render the loading placeholder; with a user whose email is
strictly equal to `ADMIN_EMAIL` render the dashboard; with any other user
render the denial; with no user render the login form. -/
def adminDashboardView (isUserLoading : Bool) (user : Option AuthUser)
    (adminEmail : Option String) : GateView :=
  if isUserLoading then GateView.loading
  else
    match user with
    | some u => if jsStrictEq u.email adminEmail then GateView.dashboard else GateView.denied
    | none => GateView.login

/-- `handleAddCategory` (`page.tsx` lines 258-263), on the stored names:
return unchanged when the trimmed name is falsy, else append the trimmed
name. -/
def handleAddCategory (categories : List String) (newCategoryName : String) : List String :=
  if jsTrim newCategoryName == "" then categories
  else categories ++ [jsTrim newCategoryName]

/-- `handleAddStyle` (`page.tsx` lines 265-270), on the stored names:
return unchanged when the trimmed name is falsy, else append the trimmed
name. -/
def handleAddStyle (styles : List String) (newStyleName : String) : List String :=
  if jsTrim newStyleName == "" then styles
  else styles ++ [jsTrim newStyleName]

/-- A create-mode form whose name was cleared while the slug from an
earlier keystroke is still present. -/
def emptyNameForm : ProductFormData :=
  { name := "", slug := "prior-slug", description := "", category := "", style := "",
    price := 0, originalPrice := none, imageUrl1 := "", imageUrl2 := "", imageUrl3 := "",
    imageUrl4 := "", sizes := [], availableColors := [], isFeatured := some false }

/-- A create-mode form with a non-empty name. -/
def sampleForm : ProductFormData :=
  { emptyNameForm with name := "Tote Bag", slug := "" }

/-- An existing product used as an edit target. -/
def sampleProduct : Product :=
  { id := "p1", name := "Tote Bag", slug := "tote-bag", description := "", category := "Bags",
    style := none, price := 10, originalPrice := none, isFeatured := false }

/-- The two orders of the tally example in the spec. -/
def exampleOrders : List Order :=
  [{ id := "o1", customerName := "", customerEmail := "",
     products := [{ id := "a", name := "", quantity := 2 }],
     totalAmount := 0, status := OrderStatus.pending },
   { id := "o2", customerName := "", customerEmail := "",
     products := [{ id := "a", name := "", quantity := 1 },
                  { id := "b", name := "", quantity := 5 }],
     totalAmount := 0, status := OrderStatus.pending }]

/-- A form with all four image URL fields filled. -/
def fourImagesForm : ProductFormData :=
  { sampleForm with
    imageUrl1 := "https://img.example/1.png"
    imageUrl2 := "https://img.example/2.png"
    imageUrl3 := "https://img.example/3.png"
    imageUrl4 := "https://img.example/4.png" }

/-- A form with only the first image URL field filled. -/
def partialImagesForm : ProductFormData :=
  { sampleForm with imageUrl1 := "https://img.example/1.png" }

/-- An upload in flight. -/
def inflightUpload : UploadState :=
  { uploading := true, uploadProgress := 50, uploadedUrl := none }

/-! ### Helper lemmas -/

theorem countOf_bump_self (c : List (String × Int)) (k : String) (q : Int) :
    countOf (bump c k q) k = countOf c k + q := by
  induction c with
  | nil => simp [bump, countOf]
  | cons hd tl ih =>
    obtain ⟨k0, v⟩ := hd
    by_cases h : k0 = k
    · simp [bump, countOf, h]
    · simp [bump, countOf, h, ih]

theorem countOf_bump_ne (c : List (String × Int)) (k k' : String) (q : Int)
    (h : k' ≠ k) : countOf (bump c k q) k' = countOf c k' := by
  induction c with
  | nil => simp [bump, countOf, Ne.symm h]
  | cons hd tl ih =>
    obtain ⟨k0, v⟩ := hd
    by_cases h0 : k0 = k
    · subst h0
      simp [bump, countOf, Ne.symm h]
    · simp [bump, countOf, h0, ih]

theorem countOf_foldl_lines (lines : List OrderLine) (c : List (String × Int)) (k : String) :
    countOf (lines.foldl (fun c p => bump c p.id p.quantity) c) k
      = countOf c k + ((lines.filter (fun p => p.id == k)).map OrderLine.quantity).sum := by
  induction lines generalizing c with
  | nil => simp
  | cons p rest ih =>
    by_cases h : p.id = k
    · simp only [List.foldl_cons, ih, countOf_bump_self, List.filter_cons, h,
        beq_self_eq_true, if_pos, List.map_cons, List.sum_cons]
      ring
    · have hne : k ≠ p.id := fun hh => h hh.symm
      simp [List.foldl_cons, ih, countOf_bump_ne _ _ _ _ hne, h]

theorem countOf_foldl_orders (orders : List Order) (c : List (String × Int)) (k : String) :
    countOf (orders.foldl
        (fun counts o => o.products.foldl (fun c p => bump c p.id p.quantity) counts) c) k
      = countOf c k + totalQty orders k := by
  induction orders generalizing c with
  | nil => simp [totalQty]
  | cons o rest ih =>
    simp only [List.foldl_cons, ih, countOf_foldl_lines, totalQty, List.map_cons,
      List.sum_cons]
    ring

theorem mem_seedInserts {defaults existing : List String} {n : String} :
    n ∈ seedInserts defaults existing ↔
      n ∈ defaults ∧ lowerStr n ∉ existing.map lowerStr := by
  simp [seedInserts]

theorem seedInserts_after_run (defaults existing : List String) :
    seedInserts defaults (runSeed defaults existing) = [] := by
  rw [seedInserts, List.filter_eq_nil_iff]
  intro n hn
  have hmem : lowerStr n ∈ (runSeed defaults existing).map lowerStr := by
    rw [runSeed, List.map_append, List.mem_append]
    by_cases h : lowerStr n ∈ existing.map lowerStr
    · exact Or.inl h
    · exact Or.inr (List.mem_map_of_mem _ (mem_seedInserts.mpr ⟨hn, h⟩))
  simp [hmem]

theorem runSeed_idem (defaults existing : List String) :
    runSeed defaults (runSeed defaults existing) = runSeed defaults existing := by
  conv_lhs => rw [runSeed]
  rw [seedInserts_after_run, List.append_nil]

theorem runSeed_nodup (defaults existing : List String)
    (hd : (defaults.map lowerStr).Nodup) (he : (existing.map lowerStr).Nodup) :
    ((runSeed defaults existing).map lowerStr).Nodup := by
  rw [runSeed, List.map_append, List.nodup_append]
  refine ⟨he, hd.sublist ((List.filter_sublist defaults).map lowerStr), ?_⟩
  intro a ha hb
  obtain ⟨n, hn, rfl⟩ := List.mem_map.mp hb
  exact (mem_seedInserts.mp hn).2 ha

theorem jsTrimChars_eq_nil_iff (l : List Char) :
    jsTrimChars l = [] ↔ ∀ c ∈ l, isJsWhitespace c := by
  unfold jsTrimChars
  rw [List.reverse_eq_nil_iff, List.dropWhile_eq_nil_iff]
  constructor
  · intro h c hc
    rw [← List.takeWhile_append_dropWhile (p := isJsWhitespace) (l := l)] at hc
    rcases List.mem_append.mp hc with h1 | h2
    · exact List.mem_takeWhile_imp h1
    · exact h c (List.mem_reverse.mpr h2)
  · intro h c hc
    exact h c (List.dropWhile_sublist _ |>.subset (List.mem_reverse.mp hc))

theorem map_url_mk (name hint : String) (l : List String) :
    (l.map (fun url => { url := url, alt := name, hint := hint : ProductImage })).map
      ProductImage.url = l := by
  induction l with
  | nil => rfl
  | cons a t ih => simp [ih]

/-! ### Claims -/

/-- C1: Slug derivation is a pure, deterministic function of the name
string: lowercase, trim, replace `&` with `and`, strip all characters
outside `[a-z0-9\s-]`, collapse each whitespace run to one hyphen, and
collapse repeated hyphens to one; on `"Men & Women's Bags!"` it returns
`"men-and-womens-bags"`. -/
theorem slug_derivation :
    (∀ name : String, generatedSlug name =
      String.mk (collapseHyphens (collapseWhitespace (stripDisallowed
        (ampToAnd (jsTrimChars (jsToLowerChars name.data))))))) ∧
    generatedSlug "Men & Women's Bags!" = "men-and-womens-bags" :=
  ⟨fun _ => rfl, by decide⟩

/-- C2 counterexample: in create mode with the name cleared to the empty
string, the slug is not recomputed: it keeps its prior value `"prior-slug"`
instead of becoming `generatedSlug "" = ""`. -/
theorem slug_recompute_counterexample :
    emptyNameForm.name = "" ∧
    slugEffect none emptyNameForm = emptyNameForm ∧
    (slugEffect none emptyNameForm).slug ≠ generatedSlug emptyNameForm.name := by
  refine ⟨rfl, by decide, by decide⟩

/-- C2 (amended): while creating (no edit target selected), the slug is
recomputed from the name on every change of the name to a non-empty value,
and left unchanged when the name becomes empty; while editing an existing
product, the effect never touches the form. -/
theorem slug_recompute_create_only (editingProduct : Option Product) (d : ProductFormData) :
    (editingProduct = none → d.name ≠ "" →
      (slugEffect editingProduct d).slug = generatedSlug d.name) ∧
    (editingProduct = none → d.name = "" → slugEffect editingProduct d = d) ∧
    (∀ p : Product, editingProduct = some p → slugEffect editingProduct d = d) := by
  refine ⟨?_, ?_, ?_⟩
  · rintro rfl h
    simp [slugEffect, h]
  · rintro rfl h
    simp [slugEffect, h]
  · rintro p rfl
    simp [slugEffect]

/-- Witness for the amended C2 at concrete inputs: a create-mode form with
name `"Tote Bag"` gets the derived slug, and the same form under an edit
target is untouched. -/
theorem slug_recompute_witness :
    (slugEffect none sampleForm).slug = generatedSlug sampleForm.name ∧
    slugEffect (some sampleProduct) sampleForm = sampleForm :=
  ⟨(slug_recompute_create_only none sampleForm).1 rfl (by decide),
   (slug_recompute_create_only (some sampleProduct) sampleForm).2.2 sampleProduct rfl⟩

/-- C3: the sales tally is a pure function of the order list: each line's
quantity accumulates under its product id with absent keys defaulting to
0; on the spec's two-order example the tally is `a ↦ 3, b ↦ 5`, and the
empty order list gives the empty map. -/
theorem sales_tally :
    (∀ (orders : List Order) (k : String),
      countOf (salesCount orders) k = totalQty orders k) ∧
    salesCount [] = [] ∧
    salesCount exampleOrders = [("a", 3), ("b", 5)] := by
  refine ⟨?_, rfl, by decide⟩
  intro orders k
  simpa [salesCount, countOf] using countOf_foldl_orders orders [] k

/-- C4: taxonomy seeding inserts exactly the defaults whose
case-insensitive form is absent, performs zero writes when every default
is present, is idempotent (a second run changes nothing), never creates a
case-insensitive duplicate, and never deletes or renames an existing
entry — for both the category defaults and the style defaults. -/
theorem taxonomy_seeding (existing : List String) :
    (∀ n, n ∈ seedInserts defaultCategories existing ↔
      n ∈ defaultCategories ∧ lowerStr n ∉ existing.map lowerStr) ∧
    (∀ n, n ∈ seedInserts defaultStyles existing ↔
      n ∈ defaultStyles ∧ lowerStr n ∉ existing.map lowerStr) ∧
    ((∀ n ∈ defaultCategories, lowerStr n ∈ existing.map lowerStr) →
      seedInserts defaultCategories existing = []) ∧
    ((∀ n ∈ defaultStyles, lowerStr n ∈ existing.map lowerStr) →
      seedInserts defaultStyles existing = []) ∧
    runSeed defaultCategories (runSeed defaultCategories existing)
      = runSeed defaultCategories existing ∧
    runSeed defaultStyles (runSeed defaultStyles existing)
      = runSeed defaultStyles existing ∧
    ((existing.map lowerStr).Nodup →
      ((runSeed defaultCategories existing).map lowerStr).Nodup) ∧
    ((existing.map lowerStr).Nodup →
      ((runSeed defaultStyles existing).map lowerStr).Nodup) ∧
    (runSeed defaultCategories existing).take existing.length = existing ∧
    (runSeed defaultStyles existing).take existing.length = existing := by
  refine ⟨fun n => mem_seedInserts, fun n => mem_seedInserts, ?_, ?_,
    runSeed_idem _ _, runSeed_idem _ _,
    runSeed_nodup _ _ (by decide), runSeed_nodup _ _ (by decide),
    by simp [runSeed, List.take_left], by simp [runSeed, List.take_left]⟩
  · intro h
    rw [seedInserts, List.filter_eq_nil_iff]
    intro n hn
    simp [h n hn]
  · intro h
    rw [seedInserts, List.filter_eq_nil_iff]
    intro n hn
    simp [h n hn]

/-- Witness for C4: seeding categories against a store already holding all
four defaults in lowercase performs zero writes, and seeding styles into a
two-name store keeps the lowercased name set duplicate-free. -/
theorem taxonomy_seeding_witness :
    seedInserts defaultCategories ["women", "men", "unisex", "bags"] = [] ∧
    ((runSeed defaultStyles ["Formal", "luggage"]).map lowerStr).Nodup := by
  have h1 := taxonomy_seeding ["women", "men", "unisex", "bags"]
  have h2 := taxonomy_seeding ["Formal", "luggage"]
  exact ⟨h1.2.2.1 (by decide), h2.2.2.2.2.2.2.2.1 (by decide)⟩

/-- C5: the submitted record's image list is the four URL fields with the
empty ones filtered out in fixed order 1..4 (four filled URLs give a list
of length 4 in input order), each entry tagged with alt text equal to the
product name; `style` and `originalPrice` are written as null when empty
rather than as an empty string. -/
theorem submit_images_and_nulls (data : ProductFormData) :
    (onSubmit data).images.map ProductImage.url
      = [data.imageUrl1, data.imageUrl2, data.imageUrl3, data.imageUrl4].filter
          (fun u => !(u == "")) ∧
    (∀ img ∈ (onSubmit data).images, img.alt = data.name) ∧
    (data.imageUrl1 ≠ "" → data.imageUrl2 ≠ "" → data.imageUrl3 ≠ "" →
      data.imageUrl4 ≠ "" →
      (onSubmit data).images.map ProductImage.url
          = [data.imageUrl1, data.imageUrl2, data.imageUrl3, data.imageUrl4] ∧
        (onSubmit data).images.length = 4) ∧
    (data.style = "" → (onSubmit data).style = none) ∧
    (data.style ≠ "" → (onSubmit data).style = some data.style) ∧
    (data.originalPrice = none → (onSubmit data).originalPrice = none) := by
  refine ⟨?_, ?_, ?_, ?_, ?_, ?_⟩
  · simp only [onSubmit, map_url_mk]
  · intro img himg
    simp only [onSubmit, List.mem_map] at himg
    obtain ⟨u, hu, hurl⟩ := himg
    rw [← hurl]
  · intro h1 h2 h3 h4
    have hfil : [data.imageUrl1, data.imageUrl2, data.imageUrl3, data.imageUrl4].filter
        (fun u => !(u == ""))
        = [data.imageUrl1, data.imageUrl2, data.imageUrl3, data.imageUrl4] := by
      rw [List.filter_eq_self]
      intro u hu
      simp only [List.mem_cons, List.not_mem_nil, or_false] at hu
      rcases hu with rfl | rfl | rfl | rfl <;> simp [h1, h2, h3, h4]
    constructor
    · simp only [onSubmit, hfil, map_url_mk]
    · simp [onSubmit, hfil]
  · intro h
    simp [onSubmit, jsStringOrNull, h]
  · intro h
    simp [onSubmit, jsStringOrNull, h]
  · intro h
    simp [onSubmit, jsNumOrNull, h]

/-- Witness for C5: a form with all four URL fields filled, empty style and
absent original price yields four images, a null style and a null original
price. -/
theorem submit_images_witness :
    (onSubmit fourImagesForm).images.length = 4 ∧
    (onSubmit fourImagesForm).style = none ∧
    (onSubmit fourImagesForm).originalPrice = none := by
  have h := submit_images_and_nulls fourImagesForm
  exact ⟨(h.2.2.1 (by decide) (by decide) (by decide) (by decide)).2,
    h.2.2.2.1 (by decide), h.2.2.2.2.2 (by decide)⟩

/-- C6: on upload success the resolved download URL is auto-assigned to the
first currently-empty image-URL field, scanning field 1 → field 4; when all
four fields are non-empty no field is modified and the URL is only
surfaced in `uploadedUrl` for manual copy. -/
theorem upload_autofill (u : UploadState) (d : ProductFormData) (url : String) :
    (uploadComplete u d url).1.uploadedUrl = some url ∧
    (uploadComplete u d url).1.uploading = false ∧
    (d.imageUrl1 = "" →
      (uploadComplete u d url).2 = { d with imageUrl1 := url }) ∧
    (d.imageUrl1 ≠ "" → d.imageUrl2 = "" →
      (uploadComplete u d url).2 = { d with imageUrl2 := url }) ∧
    (d.imageUrl1 ≠ "" → d.imageUrl2 ≠ "" → d.imageUrl3 = "" →
      (uploadComplete u d url).2 = { d with imageUrl3 := url }) ∧
    (d.imageUrl1 ≠ "" → d.imageUrl2 ≠ "" → d.imageUrl3 ≠ "" → d.imageUrl4 = "" →
      (uploadComplete u d url).2 = { d with imageUrl4 := url }) ∧
    (d.imageUrl1 ≠ "" → d.imageUrl2 ≠ "" → d.imageUrl3 ≠ "" → d.imageUrl4 ≠ "" →
      (uploadComplete u d url).2 = d) := by
  refine ⟨rfl, rfl, ?_, ?_, ?_, ?_, ?_⟩ <;>
    · intros
      simp_all [uploadComplete, autofillFirstEmpty]

/-- Witness for C6: with field 1 filled and field 2 empty, the upload
completion writes the URL into field 2. -/
theorem upload_autofill_witness :
    (uploadComplete inflightUpload partialImagesForm "https://img.example/5.png").2
      = { partialImagesForm with imageUrl2 := "https://img.example/5.png" } :=
  (upload_autofill inflightUpload partialImagesForm "https://img.example/5.png").2.2.2.1
    (by decide) (by decide)

/-- C7: on upload failure the error is logged, the upload state resets to
idle (not uploading, previously surfaced URL untouched), and the whole
product form is left unchanged. -/
theorem upload_failure_resets (log : List String) (err : String) (u : UploadState)
    (d : ProductFormData) :
    ("Upload failed " ++ err) ∈ (uploadErrorHandler log err u d).1 ∧
    (uploadErrorHandler log err u d).2.1.uploading = false ∧
    (uploadErrorHandler log err u d).2.1.uploadedUrl = u.uploadedUrl ∧
    (uploadErrorHandler log err u d).2.2 = d := by
  refine ⟨?_, rfl, rfl, rfl⟩
  simp [uploadErrorHandler]

/-- C8: an order-status update accepts exactly the four values `pending`,
`shipped`, `delivered`, `cancelled`; every other raw value is rejected at
the schema boundary and no order is written; a legal value is written into
the order with the targeted id. -/
theorem order_status_schema (orders : List Order) (oid s : String) :
    ((parseOrderStatus s).isSome ↔
      s = "pending" ∨ s = "shipped" ∨ s = "delivered" ∨ s = "cancelled") ∧
    (s ≠ "pending" → s ≠ "shipped" → s ≠ "delivered" → s ≠ "cancelled" →
      handleUpdateOrderStatus orders oid s = orders) ∧
    (∀ st, parseOrderStatus s = some st →
      handleUpdateOrderStatus orders oid s
        = orders.map (fun o => if o.id == oid then { o with status := st } else o)) := by
  refine ⟨?_, ?_, ?_⟩
  · unfold parseOrderStatus
    split_ifs with h1 h2 h3 h4 <;> simp_all
  · intro h1 h2 h3 h4
    unfold handleUpdateOrderStatus parseOrderStatus
    simp [h1, h2, h3, h4]
  · intro st hst
    unfold handleUpdateOrderStatus
    rw [hst]

/-- Witness for C8: the raw value `"refunded"` leaves the example orders
unwritten, while `"shipped"` updates the targeted order. -/
theorem order_status_witness :
    handleUpdateOrderStatus exampleOrders "o1" "refunded" = exampleOrders ∧
    handleUpdateOrderStatus exampleOrders "o1" "shipped"
      = exampleOrders.map
          (fun o => if o.id == "o1" then { o with status := OrderStatus.shipped } else o) := by
  have h := order_status_schema exampleOrders "o1"
  exact ⟨(h "refunded").2.1 (by decide) (by decide) (by decide) (by decide),
    (h "shipped").2.2 OrderStatus.shipped (by decide)⟩

/-- C9: the access gate renders exactly one of four views as a function of
identity state: a loading placeholder while resolution is in flight, the
login form with no signed-in user, the denial view for a signed-in user
whose email differs from the configured admin email, and the dashboard
when it equals it. -/
theorem access_gate_views (u : AuthUser) (a : String) :
    (∀ (user : Option AuthUser) (adminEmail : Option String),
      adminDashboardView true user adminEmail = GateView.loading) ∧
    (∀ adminEmail : Option String,
      adminDashboardView false none adminEmail = GateView.login) ∧
    (u.email = some a →
      adminDashboardView false (some u) (some a) = GateView.dashboard) ∧
    (u.email ≠ some a →
      adminDashboardView false (some u) (some a) = GateView.denied) := by
  refine ⟨fun _ _ => rfl, fun _ => rfl, ?_, ?_⟩
  · intro h
    simp [adminDashboardView, h, jsStrictEq]
  · intro h
    cases he : u.email with
    | none => simp [adminDashboardView, he, jsStrictEq]
    | some b =>
      have hb : b ≠ a := fun hh => h (by rw [he, hh])
      simp [adminDashboardView, he, jsStrictEq, hb]

/-- Witness for C9: a user with the configured admin email reaches the
dashboard; a user with a different email is denied. -/
theorem access_gate_witness :
    adminDashboardView false (some { email := some "admin@example.com" })
        (some "admin@example.com") = GateView.dashboard ∧
    adminDashboardView false (some { email := some "visitor@example.com" })
        (some "admin@example.com") = GateView.denied :=
  ⟨(access_gate_views { email := some "admin@example.com" } "admin@example.com").2.2.1 rfl,
   (access_gate_views { email := some "visitor@example.com" } "admin@example.com").2.2.2
     (by decide)⟩

/-- C10: adding a category or style performs no write at all when the
entered name trims to the empty string (it is empty or whitespace-only),
and otherwise appends exactly the trimmed name to the store. -/
theorem add_taxonomy_trim (store : List String) (s : String) :
    (jsTrim s = "" ↔ ∀ c ∈ s.data, isJsWhitespace c) ∧
    (jsTrim s = "" →
      handleAddCategory store s = store ∧ handleAddStyle store s = store) ∧
    (jsTrim s ≠ "" →
      handleAddCategory store s = store ++ [jsTrim s] ∧
      handleAddStyle store s = store ++ [jsTrim s]) := by
  refine ⟨?_, ?_, ?_⟩
  · constructor
    · intro h
      have hnil : jsTrimChars s.data = [] := by
        simpa [jsTrim] using congrArg String.data h
      exact (jsTrimChars_eq_nil_iff _).mp hnil
    · intro h
      have hnil : jsTrimChars s.data = [] := (jsTrimChars_eq_nil_iff _).mpr h
      rw [jsTrim, hnil]
  · intro h
    exact ⟨by simp [handleAddCategory, h], by simp [handleAddStyle, h]⟩
  · intro h
    exact ⟨by simp [handleAddCategory, h], by simp [handleAddStyle, h]⟩

/-- Witness for C10: `"  Bags  "` is stored trimmed as `"Bags"`, and a
whitespace-only style name performs no write. -/
theorem add_taxonomy_witness :
    handleAddCategory ["Shoes"] "  Bags  " = ["Shoes", "Bags"] ∧
    handleAddStyle ["Boxy"] "   " = ["Boxy"] := by
  have h1 := add_taxonomy_trim ["Shoes"] "  Bags  "
  have h2 := add_taxonomy_trim ["Boxy"] "   "
  refine ⟨?_, (h2.2.1 (by decide)).2⟩
  have hadd := (h1.2.2 (by decide)).1
  rw [hadd]
  decide

end AdminDashboard
